import Mathlib

/-!
Shallow embedding of the `review_toolkit` repository: the two reporting
scripts `generate_geo_summary.py` (terminal text report) and
`generate_subnet_map.py` (interactive HTML map).

Modelling conventions:
* Python strings are Lean `String`s; `str.strip()`, `str.split(',')` and
  `','  in s` are modelled by explicit executable functions over the
  character list (`pyStrip`, `pySplit`, membership in `s.toList`).
  `str.strip()` strips the ASCII whitespace characters; the rarely used
  extra Unicode whitespace stripped by Python is not relevant to the data.
* A CSV row (a `csv.DictReader` row) is an association list from column
  name to cell text; `row.get(k, d)` is `rowGet`.
* Python `float(...)` on the already-stripped coordinate text is modelled
  exactly as a decimal/exponent parser producing an exact rational
  (`pyFloat`); parse failure is `none`, which models the swallowed
  `ValueError`.  IEEE rounding of the resulting value is abstracted away
  (the value of `"37.5"` is exactly representable either way).
* A Python `dict`/`defaultdict`/`Counter` grouping iterates its keys in
  first-insertion order; this is modelled by the first-occurrence
  deduplication `firstDedup` of the key sequence together with a filter
  per key.
* Python's `sorted` (a stable sort, also with `reverse=True`) is modelled
  by the stable insertion sort `sortStable`.
-/

namespace SubnetReport

/-- ASCII whitespace, as stripped by Python `str.strip()`. -/
def isPySpace (c : Char) : Bool :=
  c = ' ' || c = '\t' || c = '\n' || c = '\r' || c.toNat = 11 || c.toNat = 12

/-- Python `str.strip()`: remove whitespace from both ends. -/
def pyStrip (s : String) : String :=
  String.mk (((s.toList.dropWhile isPySpace).reverse.dropWhile isPySpace).reverse)

/-- Helper for `pySplitOn`: accumulate the current chunk (reversed). -/
def splitCharAux (sep : Char) : List Char → List Char → List (List Char)
  | [], acc => [acc.reverse]
  | c :: cs, acc =>
    if c = sep then acc.reverse :: splitCharAux sep cs []
    else splitCharAux sep cs (c :: acc)

/-- Python `str.split(sep)` for a one-character separator
(`"".split(',') = ['']`, `"a,,b".split(',') = ['a','','b']`). -/
def pySplitOn (sep : Char) (s : String) : List String :=
  (splitCharAux sep s.toList []).map String.mk

/-- Python `dc_region.split(',')`. -/
def pySplit (s : String) : List String := pySplitOn ',' s

/-- Helper for `firstDedup`: `seen` holds the keys already emitted. -/
def firstDedupAux : List String → List String → List String
  | [], _ => []
  | a :: l, seen =>
    if a ∈ seen then firstDedupAux l seen
    else a :: firstDedupAux l (a :: seen)

/-- First-occurrence deduplication: the key iteration order of a Python
`dict` built by repeated insertion. -/
def firstDedup (l : List String) : List String := firstDedupAux l []

/-- `generate_geo_summary.py`, lines 43-52: split `dc_region` on commas,
strip each part, and map positionally onto (continent, country, city). -/
def parseRegionText (dc_region : String) : String × String × String :=
  if dc_region ≠ "" ∧ ',' ∈ dc_region.toList then
    match (pySplit dc_region).map pyStrip with
    | p0 :: p1 :: p2 :: _ => (p0, p1, p2)
    | [p0, p1] => (p0, p1, "")
    | [p0] => (p0, "", "")
    | [] => ("", "", "")
  else (dc_region, "", "")

/-- `generate_subnet_map.py`, lines 22-29: extract (country, city) from
`dc_region` (`region_parts[1] if len(region_parts) > 1 else ''`, same for
index 2); note no `strip` here, unlike the text variant. -/
def parseRegionMap (dc_region : String) : String × String :=
  if dc_region ≠ "" ∧ ',' ∈ dc_region.toList then
    let region_parts := pySplit dc_region
    (region_parts.getD 1 "", region_parts.getD 2 "")
  else ("", "")

/-- Numeric value of a list of decimal digit characters. -/
def digitsVal (cs : List Char) : Nat :=
  cs.foldl (fun a c => a * 10 + (c.toNat - 48)) 0

def allDigits (cs : List Char) : Bool := !cs.isEmpty && cs.all Char.isDigit

def digitsOrEmpty (cs : List Char) : Bool := cs.all Char.isDigit

/-- Strip an optional leading sign; returns (isNegative, rest). -/
def parseSign : List Char → Bool × List Char
  | '+' :: cs => (false, cs)
  | '-' :: cs => (true, cs)
  | cs => (false, cs)

/-- Mantissa of a Python float literal, as (numerator, power-of-ten scale):
digits, `digits.digits`, `digits.` or `.digits`. -/
def parseMantissa (cs : List Char) : Option (Nat × Nat) :=
  match splitCharAux '.' cs [] with
  | [ip] => if allDigits ip then some (digitsVal ip, 1) else none
  | [ip, fp] =>
    if digitsOrEmpty ip && digitsOrEmpty fp && !(ip.isEmpty && fp.isEmpty) then
      some (digitsVal ip * 10 ^ fp.length + digitsVal fp, 10 ^ fp.length)
    else none
  | _ => none

/-- Exponent part of a Python float literal: optional sign plus digits. -/
def parseExp (cs : List Char) : Option Int :=
  let sr := parseSign cs
  if allDigits sr.2 then
    some (if sr.1 then -(digitsVal sr.2 : Int) else (digitsVal sr.2 : Int))
  else none

/-- Model of Python `float(...)` on already-stripped text: decimal forms
with optional sign, fraction and exponent, evaluated exactly as a
rational.  The special spellings `inf`/`nan` (never produced by this data
source) and digit-group underscores are not modelled. -/
def pyFloat (s : String) : Option Rat :=
  let sr := parseSign s.toList
  match splitCharAux 'e' (sr.2.map (fun c => if c = 'E' then 'e' else c)) [] with
  | [m] =>
    (parseMantissa m).map (fun p =>
      if sr.1 then mkRat (-(p.1 : Int)) p.2 else mkRat p.1 p.2)
  | [m, e] =>
    match parseMantissa m, parseExp e with
    | some p, some ex =>
      let num : Int := if sr.1 then -(p.1 : Int) else (p.1 : Int)
      some (if 0 ≤ ex then mkRat (num * (10 : Int) ^ ex.toNat) p.2
            else mkRat num (p.2 * 10 ^ (-ex).toNat))
    | _, _ => none
  | _ => none

/-- `generate_subnet_map.py`, lines 31-48: strip the coordinate text,
treat `''` and `'None'` as unset, otherwise try `float(...)`; a failed
parse is swallowed and leaves the coordinate unset. -/
def coerceCoord (s : String) : Option Rat :=
  let t := pyStrip s
  if t ≠ "" ∧ t ≠ "None" then pyFloat t else none

/-- One in-memory node record.  The text report (`generate_geo_summary`)
uses the first block of fields; the map generator additionally fills the
passthrough and coordinate fields. -/
structure Node where
  node_id : String
  dc_id : String
  dc_owner : String
  dc_region : String
  change_type : String
  constraint_violation : String
  reward_region : String
  node_operator_id : String
  node_provider_id : String
  country : String
  city : String
  reward_xdr : String
  latitude : Option Rat
  longitude : Option Rat
deriving DecidableEq, Repr

/-- A CSV row as read by `csv.DictReader`: column name to cell text. -/
abbrev Row : Type := List (String × String)

/-- Python `row.get(key, dflt)`. -/
def rowGet (row : Row) (key dflt : String) : String :=
  match row.find? (fun p => p.1 == key) with
  | some p => p.2
  | none => dflt

/-- `generate_geo_summary.py`, lines 18-27: build a node record from a
row; columns missing from the row default to `''` (`'UNCHANGED'` for
`change_type`).  Fields not read by this script stay at their defaults. -/
def readNodeGeo (row : Row) : Node :=
  { node_id := rowGet row "node_id" ""
    dc_id := rowGet row "node_operator_dc" ""
    dc_owner := rowGet row "dc_owner" ""
    dc_region := rowGet row "dc_region" ""
    change_type := rowGet row "change_type" "UNCHANGED"
    constraint_violation := rowGet row "constraint_violation" ""
    reward_region := rowGet row "reward_region" ""
    node_operator_id := ""
    node_provider_id := ""
    country := ""
    city := ""
    reward_xdr := "0"
    latitude := none
    longitude := none }

/-- `generate_subnet_map.py`, lines 18-66: build a node record from a
row, including the (country, city) extraction and coordinate coercion. -/
def readNodeMap (row : Row) : Node :=
  let dc_region := rowGet row "dc_region" ""
  let cc := parseRegionMap dc_region
  { node_id := rowGet row "node_id" ""
    node_operator_id := rowGet row "node_operator_id" ""
    node_provider_id := rowGet row "node_provider_id" ""
    dc_id := rowGet row "node_operator_dc" ""
    dc_owner := rowGet row "dc_owner" ""
    dc_region := dc_region
    country := cc.1
    city := cc.2
    change_type := rowGet row "change_type" "UNCHANGED"
    constraint_violation := rowGet row "constraint_violation" ""
    reward_region := rowGet row "reward_region" ""
    reward_xdr := rowGet row "reward_xdr" "0"
    latitude := coerceCoord (rowGet row "gps_latitude" "")
    longitude := coerceCoord (rowGet row "gps_longitude" "") }

/-- Display truncation `node['node_id'][:20] + '...'`
(`generate_geo_summary.py`, line 55). -/
def truncId (s : String) : String := s.take 20 ++ "..."

/-- The per-node dictionary built by `analyze_geographic_distribution`
(`generate_geo_summary.py`, lines 54-61). -/
structure NodeInfo where
  node_id : String
  dc_id : String
  dc_owner : String
  change_type : String
  violations : String
  city : String
deriving DecidableEq, Repr

/-- `generate_geo_summary.py`, lines 54-61. -/
def toNodeInfo (n : Node) : NodeInfo :=
  { node_id := truncId n.node_id
    dc_id := n.dc_id
    dc_owner := n.dc_owner
    change_type := n.change_type
    violations := n.constraint_violation
    city := (parseRegionText n.dc_region).2.2 }

/-- The country component of the text variant's region parse. -/
def countryOf (n : Node) : String := (parseRegionText n.dc_region).2.1

/-- The continent component of the text variant's region parse. -/
def continentOf (n : Node) : String := (parseRegionText n.dc_region).1

/-- The composite key `f"{continent},{country}"`
(`generate_geo_summary.py`, line 63). -/
def regionKeyOf (n : Node) : String :=
  let c := continentOf n
  let co := countryOf n
  s!"{c},{co}"

/-- Key order of the `countries` defaultdict (first-occurrence order). -/
def countriesKeys (nodes : List Node) : List String :=
  firstDedup (nodes.map countryOf)

/-- The `node_info` list accumulated under one country key. -/
def countryGroup (nodes : List Node) (c : String) : List NodeInfo :=
  (nodes.filter (fun n => countryOf n = c)).map toNodeInfo

/-- Key order of the `regions` defaultdict (first-occurrence order). -/
def regionsKeys (nodes : List Node) : List String :=
  firstDedup (nodes.map regionKeyOf)

/-- The `node_info` list accumulated under one region key. -/
def regionGroup (nodes : List Node) (r : String) : List NodeInfo :=
  (nodes.filter (fun n => regionKeyOf n = r)).map toNodeInfo

/-- Key order of the `continents` defaultdict (computed by
`analyze_geographic_distribution`, unused by the printer). -/
def continentsKeys (nodes : List Node) : List String :=
  firstDedup (nodes.map continentOf)

/-- The terminal marker table (`generate_geo_summary.py`, lines 74-79). -/
def colors : List (String × String) :=
  [("ADDED", "🟢"), ("REMOVED", "🔴"), ("UNCHANGED", "🔵"), ("VIOLATION", "🟡")]

/-- `colors.get(change_type, '⚪')` (used at lines 96, 118, 147, 181, 190). -/
def changeIcon (change_type : String) : String :=
  match colors.find? (fun p => p.1 == change_type) with
  | some p => p.2
  | none => "⚪"

/-- The per-node violation test, written identically at
`generate_geo_summary.py` lines 91-92, 110-111 and 148-149 and
`generate_subnet_map.py` line 163:
`v and v not in ['NO_VIOLATIONS', 'REMOVED_NODE']` (a non-empty string is
truthy). -/
def pyViol (v : String) : Bool :=
  (v != "") && !(["NO_VIOLATIONS", "REMOVED_NODE"].contains v)

/-- `generate_geo_summary.py`, lines 91-92: global violation count. -/
def violationCount (nodes : List Node) : Nat :=
  (nodes.filter (fun n => pyViol n.constraint_violation)).length

/-- `generate_geo_summary.py`, lines 148-149: per-node violation marker. -/
def violationMarker (m : NodeInfo) : String :=
  if pyViol m.violations then " ⚠️ " else ""

/-- `generate_geo_summary.py`, lines 110-111: violating nodes of one
country group. -/
def violGroupNodes (group : List NodeInfo) : List NodeInfo :=
  group.filter (fun m => pyViol m.violations)

/-- `generate_subnet_map.py`, line 163: the info panel's
topology-violations count, over the unfiltered node list. -/
def mapTopologyViolations (nodes : List Node) : Nat :=
  (nodes.filter (fun n => pyViol n.constraint_violation)).length

/-- The constraint-analysis loop (`generate_geo_summary.py`, lines
164-170) skips nodes with `change_type == 'REMOVED'`. -/
def nonRemoved (nodes : List Node) : List Node :=
  nodes.filter (fun n => n.change_type ≠ "REMOVED")

/-- Key order of the `datacenters` defaultdict. -/
def dcKeys (nodes : List Node) : List String :=
  firstDedup ((nonRemoved nodes).map (fun n => n.dc_id))

/-- The nodes accumulated under one `dc_id` key (non-removed only). -/
def dcGroup (nodes : List Node) (dc : String) : List Node :=
  (nonRemoved nodes).filter (fun n => n.dc_id = dc)

/-- `generate_geo_summary.py`, line 173: datacenter groups with more than
one (non-removed) node. -/
def dcViolations (nodes : List Node) : List (String × List Node) :=
  ((dcKeys nodes).map (fun dc => (dc, dcGroup nodes dc))).filter
    (fun p => 1 < p.2.length)

/-- Key order of the `owners` defaultdict. -/
def ownerKeys (nodes : List Node) : List String :=
  firstDedup ((nonRemoved nodes).map (fun n => n.dc_owner))

/-- The nodes accumulated under one `dc_owner` key (non-removed only). -/
def ownerGroup (nodes : List Node) (ow : String) : List Node :=
  (nonRemoved nodes).filter (fun n => n.dc_owner = ow)

/-- `generate_geo_summary.py`, line 174: owner groups with more than one
(non-removed) node. -/
def ownerViolations (nodes : List Node) : List (String × List Node) :=
  ((ownerKeys nodes).map (fun ow => (ow, ownerGroup nodes ow))).filter
    (fun p => 1 < p.2.length)

/-- Insert `x` into `l`, walking past every `y` with `lt y x`. -/
def insertSorted (lt : α → α → Bool) (x : α) : List α → List α
  | [] => [x]
  | y :: ys => if lt y x then y :: insertSorted lt x ys else x :: y :: ys

/-- Stable sort: Python's `sorted(l, key=k)` is `sortStable` with
`lt a b := k a < k b`; `sorted(l, key=k, reverse=True)` is `sortStable`
with `lt a b := k b < k a` (stability: equal keys keep input order). -/
def sortStable (lt : α → α → Bool) : List α → List α
  | [] => []
  | x :: xs => insertSorted lt x (sortStable lt xs)

/-- `Counter(node['change_type'] for node in nodes)`
(`generate_geo_summary.py`, line 90): counts in first-occurrence order. -/
def changeCounts (nodes : List Node) : List (String × Nat) :=
  (firstDedup (nodes.map (fun n => n.change_type))).map
    (fun ct => (ct, (nodes.filter (fun n => n.change_type = ct)).length))

/-- `Counter(node['change_type'] for node in country_nodes)`
(`generate_geo_summary.py`, line 109). -/
def changeBreakdown (group : List NodeInfo) : List (String × Nat) :=
  (firstDedup (group.map (fun m => m.change_type))).map
    (fun ct => (ct, (group.filter (fun m => m.change_type = ct)).length))

/-- The summary string of one country line
(`generate_geo_summary.py`, lines 113-122). -/
def countrySummaryLine (c : String) (group : List NodeInfo) : String :=
  let total := group.length
  let base := s!"  {c}: {total} nodes"
  let breakdown := changeBreakdown group
  let vnodes := violGroupNodes group
  if 1 < breakdown.length ∨ vnodes ≠ [] then
    let details :=
      (breakdown.filter (fun p => 0 < p.2)).map
        (fun p => changeIcon p.1 ++ toString p.2)
    let details :=
      details ++ (if vnodes ≠ [] then
        let vn := vnodes.length
        [s!"🟡{vn} violations"] else [])
    let joined := String.intercalate ", " details
    base ++ s!" ({joined})"
  else base

/-- The `country_summary` list of `(country, count, summary)` triples in
dict-key (first-encounter) order, skipping the empty country
(`generate_geo_summary.py`, lines 104-124). -/
def countrySummary (nodes : List Node) : List (String × Nat × String) :=
  ((countriesKeys nodes).filter (fun c => c ≠ "")).map
    (fun c => (c, (countryGroup nodes c).length,
               countrySummaryLine c (countryGroup nodes c)))

/-- `sorted(country_summary, key=lambda x: x[1], reverse=True)`
(`generate_geo_summary.py`, line 127). -/
def countrySorted (nodes : List Node) : List (String × Nat × String) :=
  sortStable (fun a b => decide (b.2.1 < a.2.1)) (countrySummary nodes)

/-- Python string comparison (code-point lexicographic), as used by
`sorted(...)` on string keys. -/
def strLtB (a b : String) : Bool := decide (a < b)

/-- `"=" * 80`. -/
def bar : String := String.mk (List.replicate 80 '=')

/-- `generate_geo_summary.py`, lines 81-87. -/
def headerSection (nodes : List Node) (subnet_id : String) : List String :=
  let total := nodes.length
  [bar, "🌍 GEOGRAPHIC DISTRIBUTION ANALYSIS", bar] ++
  (if subnet_id ≠ "" then [s!"Subnet: {subnet_id}"] else []) ++
  [s!"Total Nodes: {total}", ""]

/-- `generate_geo_summary.py`, lines 89-100. -/
def changeSummarySection (nodes : List Node) : List String :=
  let vc := violationCount nodes
  ["📊 CHANGE SUMMARY:"] ++
  (changeCounts nodes).map (fun p =>
    let icon := changeIcon p.1
    let ct := p.1
    let count := p.2
    s!"  {icon} {ct}: {count} nodes") ++
  (if 0 < vc then [s!"  🟡 VIOLATIONS: {vc} nodes"] else []) ++ [""]

/-- `generate_geo_summary.py`, lines 102-129. -/
def countrySection (nodes : List Node) : List String :=
  "🌎 COUNTRY DISTRIBUTION:" :: (countrySorted nodes).map (fun t => t.2.2) ++ [""]

/-- `f"{node['dc_id']} ({node['dc_owner']})"`
(`generate_geo_summary.py`, line 142). -/
def dcInfoKey (m : NodeInfo) : String :=
  let a := m.dc_id
  let b := m.dc_owner
  s!"{a} ({b})"

/-- The one or two report lines for one node of a datacenter group
(`generate_geo_summary.py`, lines 146-153). -/
def nodeLines (m : NodeInfo) : List String :=
  let icon := changeIcon m.change_type
  let vmark := violationMarker m
  let city := m.city
  let cityInfo := if m.city ≠ "" then s!" ({city})" else ""
  let nid := m.node_id
  let line := s!"      {icon} {nid}{cityInfo}{vmark}"
  if vmark ≠ "" then
    let v := m.violations
    [line, s!"         └─ Violations: {v}"]
  else [line]

/-- The datacenter-grouped listing inside one region
(`generate_geo_summary.py`, lines 139-153); `sorted(dc_groups.items())`
on distinct string keys is a lexicographic key sort. -/
def regionDcSection (rnodes : List NodeInfo) : List String :=
  (sortStable strLtB (firstDedup (rnodes.map dcInfoKey))).flatMap
    (fun key =>
      s!"    🏢 {key}:" ::
      ((rnodes.filter (fun m => dcInfoKey m = key)).flatMap nodeLines))

/-- `generate_geo_summary.py`, lines 131-153. -/
def regionalSection (nodes : List Node) : List String :=
  "🏙️  DETAILED REGIONAL BREAKDOWN:" ::
  (sortStable strLtB (regionsKeys nodes)).flatMap
    (fun r =>
      if r = "" ∨ r = "," then []
      else
        let g := regionGroup nodes r
        let sz := g.length
        ["", s!"  📍 {r} ({sz} nodes):"] ++ regionDcSection g)

/-- Report lines of one flagged datacenter/owner group
(`generate_geo_summary.py`, lines 178-182 and 187-191). -/
def violationEntryLines (p : String × List Node) : List String :=
  let k := p.1
  let c := p.2.length
  s!"  ⚠️  {k}: {c} nodes" ::
  p.2.map (fun n =>
    let icon := changeIcon n.change_type
    let nid := n.node_id
    s!"    {icon} {nid}")

/-- `generate_geo_summary.py`, lines 155-197. -/
def constraintSection (nodes : List Node) : List String :=
  ["", bar, "🚨 CONSTRAINT ANALYSIS:", bar] ++
  (if dcViolations nodes ≠ [] then
    "🏢 DATACENTER CONSTRAINT VIOLATIONS:" ::
      (dcViolations nodes).flatMap violationEntryLines ++ [""]
   else []) ++
  (if ownerViolations nodes ≠ [] then
    "🏭 DATACENTER OWNER CONSTRAINT VIOLATIONS:" ::
      (ownerViolations nodes).flatMap violationEntryLines ++ [""]
   else []) ++
  (if dcViolations nodes = [] ∧ ownerViolations nodes = [] then
    ["✅ No obvious datacenter or owner constraint violations detected",
     "   (Note: Provider constraint checking requires full audit data)", ""]
   else [])

/-- `generate_geo_summary.py`, lines 199-202. -/
def footerSection : List String :=
  [bar, "💡 TIP: For full interactive geographic visualization,",
   "   open subnet_map.html in your browser", bar]

/-- The whole text report of `print_geographic_summary`
(`generate_geo_summary.py`, lines 69-202), as its sequence of output
lines. -/
def renderTextReport (nodes : List Node) (subnet_id : String) : List String :=
  headerSection nodes subnet_id ++ changeSummarySection nodes ++
  countrySection nodes ++ regionalSection nodes ++
  constraintSection nodes ++ footerSection

/-- `generate_subnet_map.py`, line 78: only nodes with both coordinates
set are serialized onto the map. -/
def valid_nodes (nodes : List Node) : List Node :=
  nodes.filter (fun n => n.latitude.isSome && n.longitude.isSome)

/-- `generate_subnet_map.py`, line 154: `len(nodes)` (unfiltered). -/
def panelTotal (nodes : List Node) : Nat := nodes.length

/-- `generate_subnet_map.py`, line 157 (unfiltered). -/
def panelAdded (nodes : List Node) : Nat :=
  (nodes.filter (fun n => n.change_type = "ADDED")).length

/-- `generate_subnet_map.py`, line 158 (unfiltered). -/
def panelRemoved (nodes : List Node) : Nat :=
  (nodes.filter (fun n => n.change_type = "REMOVED")).length

/-- `generate_subnet_map.py`, line 159 (unfiltered). -/
def panelUnchanged (nodes : List Node) : Nat :=
  (nodes.filter (fun n => n.change_type = "UNCHANGED")).length

def jsonEscapeChar (c : Char) : String :=
  if c = '"' then "\\\"" else if c = '\\' then "\\\\"
  else if c = '\n' then "\\n" else if c = '\t' then "\\t"
  else if c = '\r' then "\\r" else String.mk [c]

def jsonOfString (s : String) : String :=
  "\"" ++ String.join (s.toList.map jsonEscapeChar) ++ "\""

/-- JSON rendering of an optional coordinate (`None` → `null`; the exact
decimal formatting of the number is abstracted by `toString`). -/
def jsonOfCoord : Option Rat → String
  | none => "null"
  | some q => toString q

/-- One serialized node object, fields in the order of the `node_data`
dict (`generate_subnet_map.py`, lines 50-65). -/
def jsonOfNode (n : Node) : String :=
  "\x7b" ++ String.intercalate ", "
    [ "\"node_id\": " ++ jsonOfString n.node_id,
      "\"node_operator_id\": " ++ jsonOfString n.node_operator_id,
      "\"node_provider_id\": " ++ jsonOfString n.node_provider_id,
      "\"dc_id\": " ++ jsonOfString n.dc_id,
      "\"dc_owner\": " ++ jsonOfString n.dc_owner,
      "\"dc_region\": " ++ jsonOfString n.dc_region,
      "\"country\": " ++ jsonOfString n.country,
      "\"city\": " ++ jsonOfString n.city,
      "\"change_type\": " ++ jsonOfString n.change_type,
      "\"constraint_violation\": " ++ jsonOfString n.constraint_violation,
      "\"reward_region\": " ++ jsonOfString n.reward_region,
      "\"reward_xdr\": " ++ jsonOfString n.reward_xdr,
      "\"latitude\": " ++ jsonOfCoord n.latitude,
      "\"longitude\": " ++ jsonOfCoord n.longitude ] ++ "\x7d"

/-- `json.dumps(valid_nodes, indent=8)` with the indentation whitespace
layout abstracted. -/
def jsonDump (ns : List Node) : String :=
  "[" ++ String.intercalate ", " (ns.map jsonOfNode) ++ "]"

/-- `generate_subnet_map.py`, lines 81-86. -/
def color_scheme : List (String × String) :=
  [("ADDED", "#28a745"), ("REMOVED", "#dc3545"),
   ("UNCHANGED", "#007bff"), ("VIOLATION", "#ffc107")]

/-- `color_scheme[key]` (all uses are on present literal keys). -/
def schemeGet (k : String) : String :=
  match color_scheme.find? (fun p => p.1 == k) with
  | some p => p.2
  | none => ""

/-- The on-page info panel (`generate_subnet_map.py`, lines 151-165):
every statistic is computed over the unfiltered node list. -/
def infoPanel (nodes : List Node) (subnet_id : String) : String :=
  let sid := subnet_id.take 40
  let total := panelTotal nodes
  let added := panelAdded nodes
  let removed := panelRemoved nodes
  let unchanged := panelUnchanged nodes
  let viol := mapTopologyViolations nodes
  String.intercalate "\n"
    [ "    <div class=\"info-panel\">",
      "        <h3>IC Subnet Analysis</h3>",
      s!"        <p><strong>Subnet ID:</strong><br>{sid}...</p>",
      s!"        <p><strong>Total Nodes Analysed:</strong> {total}</p>",
      "        <div>",
      "            <strong>Changes:</strong><br>",
      s!"            Added: {added}<br>",
      s!"            Removed: {removed}<br>",
      s!"            Unchanged: {unchanged}",
      "        </div>",
      "        <div style=\"margin-top: 10px;\">",
      "            <strong>Topology Violations:</strong><br>",
      s!"            {viol} nodes",
      "        </div>",
      "    </div>" ]

/-- The static head/style part of the HTML template
(`generate_subnet_map.py`, lines 88-150; the inert CSS text is abridged
to a representative fragment, it contains no interpolation). -/
def htmlHead : String :=
  "<!DOCTYPE html>\n<html>\n<head>\n    <title>IC Subnet Analysis Map</title>\n" ++
  "    <link rel=\"stylesheet\" href=\"https://unpkg.com/leaflet@1.9.4/dist/leaflet.css\" />\n" ++
  "    <style>/* static styles */</style>\n</head>\n<body>\n    <div id=\"map\"></div>\n"

/-- The legend block (`generate_subnet_map.py`, lines 167-185). -/
def legendSection : String :=
  let a := schemeGet "ADDED"
  let r := schemeGet "REMOVED"
  let u := schemeGet "UNCHANGED"
  let v := schemeGet "VIOLATION"
  String.intercalate "\n"
    [ "    <div class=\"legend\">",
      "        <h4>Legend</h4>",
      s!"        <div class=\"legend-color\" style=\"background-color: {a};\"></div><span>Added Nodes</span>",
      s!"        <div class=\"legend-color\" style=\"background-color: {r};\"></div><span>Removed Nodes</span>",
      s!"        <div class=\"legend-color\" style=\"background-color: {u};\"></div><span>Unchanged Nodes</span>",
      s!"        <div class=\"legend-color\" style=\"background-color: {v};\"></div><span>Constraint Violations</span>",
      "    </div>\n" ]

/-- Static script text preceding the embedded node data
(`generate_subnet_map.py`, lines 187-198). -/
def mapScriptPrefix : String :=
  "    <script src=\"https://unpkg.com/leaflet@1.9.4/dist/leaflet.js\"></script>\n" ++
  "    <script>\n        var map = L.map('map').setView([20, 0], 2);\n" ++
  "        // static tile layer setup\n        var nodes = "

/-- Static script text following the embedded node data: the
marker-drawing and popup logic (`generate_subnet_map.py`, lines 198-286;
inert client-side script text abridged). -/
def mapScriptSuffix : String :=
  ";\n        // static marker, popup and bounds script\n    </script>\n</body>\n</html>\n"

/-- The full HTML document written by `generate_html_map`
(`generate_subnet_map.py`, lines 74-289): only `valid_nodes` is
serialized into the marker data, while the info panel is computed over
the unfiltered list. -/
def generateHtmlMap (nodes : List Node) (subnet_id : String) : String :=
  htmlHead ++ infoPanel nodes subnet_id ++ legendSection ++
  mapScriptPrefix ++ jsonDump (valid_nodes nodes) ++ mapScriptSuffix

/-- The node-level "in violation" rule in the spec's words: the field is
non-empty and differs from both sentinel values. -/
def specInViolation (v : String) : Prop :=
  v ≠ "" ∧ v ≠ "NO_VIOLATIONS" ∧ v ≠ "REMOVED_NODE"

instance (v : String) : Decidable (specInViolation v) := by
  unfold specInViolation; infer_instance

/-- A concrete node record; the remaining columns are defaulted exactly
as the loaders default them. -/
def mkTestNode (id dc ow reg ct cv : String) : Node :=
  { node_id := id, dc_id := dc, dc_owner := ow, dc_region := reg,
    change_type := ct, constraint_violation := cv, reward_region := "",
    node_operator_id := "", node_provider_id := "", country := "",
    city := "", reward_xdr := "0", latitude := none, longitude := none }

/-- Test input: two active nodes share `dc1`; a `REMOVED` node shares
`dc2` with a single active node; all owners are distinct. -/
def sampleC1 : List Node :=
  [ mkTestNode "n1" "dc1" "OwnerA" "NA,US,NYC" "UNCHANGED" "NO_VIOLATIONS",
    mkTestNode "n2" "dc1" "OwnerB" "NA,US,SFO" "UNCHANGED" "NO_VIOLATIONS",
    mkTestNode "n3" "dc2" "OwnerC" "EU,DE" "REMOVED" "REMOVED_NODE",
    mkTestNode "n4" "dc2" "OwnerD" "EU,DE" "ADDED" "NO_VIOLATIONS" ]

/-- Test input: a node carrying a free-text violation. -/
def sampleC2 : List Node :=
  [ mkTestNode "n1" "dc1" "OwnerA" "NA,US" "ADDED" "colocated with n2" ]

/-- Test input: one country with two nodes and two tied countries with
one node each (`DE` encountered before `FR`). -/
def sampleC7 : List Node :=
  [ mkTestNode "n1" "dc1" "OwnerA" "NA,US,NYC" "UNCHANGED" "NO_VIOLATIONS",
    mkTestNode "n2" "dc2" "OwnerB" "NA,US,SFO" "UNCHANGED" "NO_VIOLATIONS",
    mkTestNode "n3" "dc3" "OwnerC" "EU,DE" "UNCHANGED" "NO_VIOLATIONS",
    mkTestNode "n4" "dc4" "OwnerD" "EU,FR" "UNCHANGED" "NO_VIOLATIONS" ]

/-- Test input: two rows from a file whose `node_operator_dc` and
`dc_owner` columns are absent, so the loader defaults both to `''`. -/
def sampleRowsC10 : List Row :=
  [ [("node_id", "x"), ("dc_region", "NA,US")],
    [("node_id", "y"), ("dc_region", "EU,DE")] ]

def sampleC10 : List Node := sampleRowsC10.map readNodeGeo

/-! ### Supporting lemmas -/

theorem splitCharAux_length (sep : Char) :
    ∀ (cs acc : List Char), (splitCharAux sep cs acc).length = cs.count sep + 1 := by
  intro cs
  induction cs with
  | nil => intro acc; simp [splitCharAux]
  | cons c cs ih =>
    intro acc
    by_cases h : c = sep
    · simp [splitCharAux, h, ih, List.count_cons]
    · simp [splitCharAux, h, ih, List.count_cons]

theorem pySplit_length (s : String) :
    (pySplit s).length = s.toList.count ',' + 1 := by
  simp [pySplit, pySplitOn, splitCharAux_length]

theorem comma_mem_iff (s : String) :
    ',' ∈ s.toList ↔ 2 ≤ (pySplit s).length := by
  rw [pySplit_length, ← List.count_pos_iff]
  omega

theorem pySplit_ne_empty_of_two_le (s : String) (h : 2 ≤ (pySplit s).length) :
    s ≠ "" := by
  intro hs
  subst hs
  simp [pySplit, pySplitOn, splitCharAux] at h

theorem pyStrip_empty : pyStrip "" = "" := rfl

theorem mem_firstDedupAux :
    ∀ (l seen : List String) (a : String),
      a ∈ firstDedupAux l seen ↔ (a ∈ l ∧ a ∉ seen)
  | [], seen, a => by simp [firstDedupAux]
  | b :: l, seen, a => by
    rw [firstDedupAux]
    by_cases hb : b ∈ seen
    · rw [if_pos hb, mem_firstDedupAux l seen a]
      constructor
      · rintro ⟨h1, h2⟩
        exact ⟨List.mem_cons_of_mem _ h1, h2⟩
      · rintro ⟨h1, h2⟩
        rcases List.mem_cons.mp h1 with rfl | h1
        · exact absurd hb h2
        · exact ⟨h1, h2⟩
    · rw [if_neg hb]
      constructor
      · intro h
        rcases List.mem_cons.mp h with rfl | h
        · exact ⟨List.mem_cons_self _ _, hb⟩
        · obtain ⟨h1, h2⟩ := (mem_firstDedupAux l (b :: seen) a).mp h
          exact ⟨List.mem_cons_of_mem _ h1,
            fun hs => h2 (List.mem_cons_of_mem _ hs)⟩
      · rintro ⟨h1, h2⟩
        rcases List.mem_cons.mp h1 with rfl | h1
        · exact List.mem_cons_self _ _
        · by_cases hab : a = b
          · exact hab ▸ List.mem_cons_self _ _
          · refine List.mem_cons_of_mem _
              ((mem_firstDedupAux l (b :: seen) a).mpr ⟨h1, ?_⟩)
            intro hs
            rcases List.mem_cons.mp hs with h | h
            · exact hab h
            · exact h2 h

theorem firstDedup_mem (l : List String) (a : String) :
    a ∈ firstDedup l ↔ a ∈ l := by
  simp [firstDedup, mem_firstDedupAux]

theorem insertSorted_perm (lt : α → α → Bool) (x : α) (l : List α) :
    List.Perm (insertSorted lt x l) (x :: l) := by
  induction l with
  | nil => simp [insertSorted]
  | cons y ys ih =>
    rw [insertSorted]
    by_cases h : lt y x
    · simp only [h, if_true]
      exact (ih.cons y).trans (List.Perm.swap x y ys)
    · simp [h]

theorem sortStable_perm (lt : α → α → Bool) (l : List α) :
    List.Perm (sortStable lt l) l := by
  induction l with
  | nil => simp [sortStable]
  | cons x xs ih =>
    rw [sortStable]
    exact (insertSorted_perm lt x (sortStable lt xs)).trans (ih.cons x)

theorem mem_sortStable (lt : α → α → Bool) (l : List α) (a : α) :
    a ∈ sortStable lt l ↔ a ∈ l :=
  (sortStable_perm lt l).mem_iff

theorem insertSorted_pairwise_desc (k : α → Nat) (x : α) (l : List α)
    (h : l.Pairwise (fun a b => k b ≤ k a)) :
    (insertSorted (fun a b => decide (k b < k a)) x l).Pairwise
      (fun a b => k b ≤ k a) := by
  induction l with
  | nil => simp [insertSorted]
  | cons y ys ih =>
    rw [List.pairwise_cons] at h
    obtain ⟨hy, hys⟩ := h
    rw [insertSorted]
    by_cases hxy : k x < k y
    · rw [if_pos (by simpa using hxy)]
      rw [List.pairwise_cons]
      refine ⟨?_, ih hys⟩
      intro z hz
      rcases List.mem_cons.mp ((insertSorted_perm _ x ys).mem_iff.mp hz) with rfl | hz
      · exact Nat.le_of_lt hxy
      · exact hy z hz
    · rw [if_neg (by simpa using hxy)]
      rw [List.pairwise_cons]
      refine ⟨?_, List.pairwise_cons.mpr ⟨hy, hys⟩⟩
      intro z hz
      rcases List.mem_cons.mp hz with rfl | hz
      · exact Nat.le_of_not_lt hxy
      · exact Nat.le_trans (hy z hz) (Nat.le_of_not_lt hxy)

theorem sortStable_pairwise_desc (k : α → Nat) (l : List α) :
    (sortStable (fun a b => decide (k b < k a)) l).Pairwise
      (fun a b => k b ≤ k a) := by
  induction l with
  | nil => simp [sortStable]
  | cons x xs ih =>
    rw [sortStable]
    exact insertSorted_pairwise_desc k x _ ih

theorem sublist_insertSorted (lt : α → α → Bool) (x : α) (l : List α) :
    List.Sublist l (insertSorted lt x l) := by
  induction l with
  | nil => simp [insertSorted]
  | cons y ys ih =>
    rw [insertSorted]
    by_cases h : lt y x
    · simpa [h] using ih.cons₂ y
    · simp [h]

theorem insertSorted_pair_of_mem (k : α → Nat) (a b : α) (t : List α)
    (hb : b ∈ t) (hk : k b ≤ k a) :
    List.Sublist [a, b] (insertSorted (fun u v => decide (k v < k u)) a t) := by
  induction t with
  | nil => cases hb
  | cons y ys ih =>
    rw [insertSorted]
    by_cases h : k a < k y
    · rw [if_pos (by simpa using h)]
      rcases List.mem_cons.mp hb with rfl | hb2
      · omega
      · exact (ih hb2).cons y
    · rw [if_neg (by simpa using h)]
      exact (List.singleton_sublist.mpr hb).cons₂ a

theorem sortStable_stable (k : α → Nat) (a b : α) (l : List α)
    (h : List.Sublist [a, b] l) (hk : k b ≤ k a) :
    List.Sublist [a, b] (sortStable (fun u v => decide (k v < k u)) l) := by
  induction l with
  | nil => cases h
  | cons x xs ih =>
    rw [sortStable]
    cases h with
    | cons _ h2 => exact (ih h2).trans (sublist_insertSorted _ x _)
    | cons₂ _ h2 =>
      exact insertSorted_pair_of_mem k a b _
        ((mem_sortStable _ xs b).mpr (List.singleton_sublist.mp h2)) hk

theorem pyViol_iff (v : String) :
    pyViol v = true ↔ (v ≠ "" ∧ v ≠ "NO_VIOLATIONS" ∧ v ≠ "REMOVED_NODE") := by
  simp [pyViol, List.contains, and_assoc]

theorem pyViol_eq_decide (v : String) :
    pyViol v = decide (specInViolation v) := by
  by_cases h : specInViolation v
  · simp [h, (pyViol_iff v).mpr h]
  · have hv : pyViol v ≠ true := fun hv => h ((pyViol_iff v).mp hv)
    simp [h, Bool.eq_false_iff.mpr hv]

theorem mem_dcViolations (nodes : List Node) (dc : String) (g : List Node) :
    (dc, g) ∈ dcViolations nodes ↔ g = dcGroup nodes dc ∧ 1 < g.length := by
  unfold dcViolations
  rw [List.mem_filter]
  simp only [List.mem_map]
  constructor
  · rintro ⟨⟨key, hkey, heq⟩, hlen⟩
    obtain ⟨rfl, rfl⟩ := Prod.mk.injEq _ _ _ _ ▸ heq
    exact ⟨rfl, by simpa using hlen⟩
  · rintro ⟨rfl, hlen⟩
    refine ⟨⟨dc, ?_, rfl⟩, by simpa using hlen⟩
    rw [dcKeys, firstDedup_mem, List.mem_map]
    have hne : dcGroup nodes dc ≠ [] := by
      intro h0
      rw [h0] at hlen
      simp at hlen
    obtain ⟨n, hn⟩ := List.exists_mem_of_ne_nil _ hne
    rw [dcGroup, List.mem_filter] at hn
    exact ⟨n, hn.1, by simpa using hn.2⟩

theorem mem_ownerViolations (nodes : List Node) (ow : String) (g : List Node) :
    (ow, g) ∈ ownerViolations nodes ↔ g = ownerGroup nodes ow ∧ 1 < g.length := by
  unfold ownerViolations
  rw [List.mem_filter]
  simp only [List.mem_map]
  constructor
  · rintro ⟨⟨key, hkey, heq⟩, hlen⟩
    obtain ⟨rfl, rfl⟩ := Prod.mk.injEq _ _ _ _ ▸ heq
    exact ⟨rfl, by simpa using hlen⟩
  · rintro ⟨rfl, hlen⟩
    refine ⟨⟨ow, ?_, rfl⟩, by simpa using hlen⟩
    rw [ownerKeys, firstDedup_mem, List.mem_map]
    have hne : ownerGroup nodes ow ≠ [] := by
      intro h0
      rw [h0] at hlen
      simp at hlen
    obtain ⟨n, hn⟩ := List.exists_mem_of_ne_nil _ hne
    rw [ownerGroup, List.mem_filter] at hn
    exact ⟨n, hn.1, by simpa using hn.2⟩

/-! ### Claim theorems -/

/-- **C1**: the text report's constraint analysis flags a datacenter
(resp. owner) group as a structural violation if and only if strictly
more than one node with `change_type ≠ 'REMOVED'` shares that `dc_id`
(resp. `dc_owner`); a flagged group consists of exactly the non-removed
sharers (so two non-removed sharers give a flagged group of count 2, a
single non-removed node is never flagged, and a `REMOVED` node never
counts toward the threshold). -/
theorem claim1_structural_violation_iff (nodes : List Node) (key : String) :
    ((∃ g, (key, g) ∈ dcViolations nodes) ↔
      1 < ((nodes.filter (fun n => n.change_type ≠ "REMOVED")).filter
            (fun n => n.dc_id = key)).length) ∧
    (∀ g, (key, g) ∈ dcViolations nodes →
      g = (nodes.filter (fun n => n.change_type ≠ "REMOVED")).filter
            (fun n => n.dc_id = key)) ∧
    ((∃ g, (key, g) ∈ ownerViolations nodes) ↔
      1 < ((nodes.filter (fun n => n.change_type ≠ "REMOVED")).filter
            (fun n => n.dc_owner = key)).length) ∧
    (∀ g, (key, g) ∈ ownerViolations nodes →
      g = (nodes.filter (fun n => n.change_type ≠ "REMOVED")).filter
            (fun n => n.dc_owner = key)) := by
  refine ⟨⟨?_, ?_⟩, ?_, ⟨?_, ?_⟩, ?_⟩
  · rintro ⟨g, hg⟩
    obtain ⟨rfl, hlen⟩ := (mem_dcViolations nodes key g).mp hg
    exact hlen
  · intro hlen
    exact ⟨_, (mem_dcViolations nodes key _).mpr ⟨rfl, hlen⟩⟩
  · intro g hg
    exact ((mem_dcViolations nodes key g).mp hg).1
  · rintro ⟨g, hg⟩
    obtain ⟨rfl, hlen⟩ := (mem_ownerViolations nodes key g).mp hg
    exact hlen
  · intro hlen
    exact ⟨_, (mem_ownerViolations nodes key _).mpr ⟨rfl, hlen⟩⟩
  · intro g hg
    exact ((mem_ownerViolations nodes key g).mp hg).1

/-- Witness for C1 at a concrete input: in `sampleC1`, `dc1` holds two
non-removed nodes and is flagged with count 2; `dc2` holds one active
and one `REMOVED` node and is not flagged; no owner is flagged. -/
theorem claim1_structural_violation_iff_witness :
    (∃ g, ("dc1", g) ∈ dcViolations sampleC1) ∧
    (∀ g, ("dc1", g) ∈ dcViolations sampleC1 → g.length = 2) ∧
    ¬ (∃ g, ("dc2", g) ∈ dcViolations sampleC1) ∧
    ¬ (∃ g, ("OwnerA", g) ∈ ownerViolations sampleC1) := by
  refine ⟨?_, ?_, ?_, ?_⟩
  · exact (claim1_structural_violation_iff sampleC1 "dc1").1.mpr (by decide)
  · intro g hg
    rw [(claim1_structural_violation_iff sampleC1 "dc1").2.1 g hg]
    decide
  · intro hex
    have h2 := (claim1_structural_violation_iff sampleC1 "dc2").1.mp hex
    revert h2
    decide
  · intro hex
    have h2 := (claim1_structural_violation_iff sampleC1 "OwnerA").2.2.1.mp hex
    revert h2
    decide

/-- **C2**: at every report site (the change summary's violation count,
the country breakdown's violating-node list, the per-node violation
marker, and the map's topology-violations panel) a record is counted or
marked as in violation exactly when its `constraint_violation` field is
a non-empty string different from `NO_VIOLATIONS` and `REMOVED_NODE`,
independent of all other fields. -/
theorem claim2_violation_rule (nodes : List Node) (group : List NodeInfo)
    (m : NodeInfo) :
    violationCount nodes =
      (nodes.filter (fun n => decide (specInViolation n.constraint_violation))).length ∧
    mapTopologyViolations nodes =
      (nodes.filter (fun n => decide (specInViolation n.constraint_violation))).length ∧
    violGroupNodes group =
      group.filter (fun x => decide (specInViolation x.violations)) ∧
    ((violationMarker m = " ⚠️ ") ↔ specInViolation m.violations) ∧
    (violationMarker m = " ⚠️ " ∨ violationMarker m = "") ∧
    (∀ n₁ n₂ : Node, n₁.constraint_violation = n₂.constraint_violation →
      pyViol n₁.constraint_violation = pyViol n₂.constraint_violation) := by
  refine ⟨?_, ?_, ?_, ⟨?_, ?_⟩, ?_, ?_⟩
  · unfold violationCount
    rw [List.filter_congr (fun n _ => pyViol_eq_decide n.constraint_violation)]
  · unfold mapTopologyViolations
    rw [List.filter_congr (fun n _ => pyViol_eq_decide n.constraint_violation)]
  · unfold violGroupNodes
    exact List.filter_congr (fun x _ => pyViol_eq_decide x.violations)
  · intro hm
    by_cases h : pyViol m.violations
    · exact (pyViol_iff _).mp h
    · rw [violationMarker, if_neg (by simpa using h)] at hm
      exact absurd hm (by decide)
  · intro h
    rw [violationMarker, if_pos ((pyViol_iff _).mpr h)]
  · by_cases h : pyViol m.violations <;> simp [violationMarker, h]
  · intro n₁ n₂ h
    rw [h]

/-- Witness for C2 at a concrete input. -/
theorem claim2_violation_rule_witness :
    violationCount sampleC2 =
      (sampleC2.filter (fun n => decide (specInViolation n.constraint_violation))).length ∧
    (violationMarker (toNodeInfo (mkTestNode "a" "b" "c" "d" "e" "colocated")) = " ⚠️ ") ∧
    pyViol (mkTestNode "a" "b" "c" "d" "ADDED" "colocated").constraint_violation =
      pyViol (mkTestNode "x" "y" "z" "w" "REMOVED" "colocated").constraint_violation := by
  refine ⟨(claim2_violation_rule sampleC2 [] (toNodeInfo (mkTestNode "a" "b" "c" "d" "e" "colocated"))).1, ?_, ?_⟩
  · exact (claim2_violation_rule sampleC2 []
      (toNodeInfo (mkTestNode "a" "b" "c" "d" "e" "colocated"))).2.2.2.1.mpr (by decide)
  · exact (claim2_violation_rule sampleC2 [] (toNodeInfo (mkTestNode "a" "b" "c" "d" "e" "colocated"))).2.2.2.2.2
      (mkTestNode "a" "b" "c" "d" "ADDED" "colocated")
      (mkTestNode "x" "y" "z" "w" "REMOVED" "colocated") (by decide)

/-- **C10**: empty-string keys are not excluded from the structural
heuristic: whenever at least two non-removed records carry `dc_id = ''`
(resp. `dc_owner = ''`) — as the loader produces when the corresponding
input column is absent — the empty-string group is reported as a
datacenter-level (resp. owner-level) violation. -/
theorem claim10_empty_key_groups (nodes : List Node) :
    (2 ≤ ((nodes.filter (fun n => n.change_type ≠ "REMOVED")).filter
            (fun n => n.dc_id = "")).length →
      ("", (nodes.filter (fun n => n.change_type ≠ "REMOVED")).filter
            (fun n => n.dc_id = "")) ∈ dcViolations nodes) ∧
    (2 ≤ ((nodes.filter (fun n => n.change_type ≠ "REMOVED")).filter
            (fun n => n.dc_owner = "")).length →
      ("", (nodes.filter (fun n => n.change_type ≠ "REMOVED")).filter
            (fun n => n.dc_owner = "")) ∈ ownerViolations nodes) ∧
    (∀ row : Row, row.find? (fun p => p.1 == "node_operator_dc") = none →
      (readNodeGeo row).dc_id = "") ∧
    (∀ row : Row, row.find? (fun p => p.1 == "dc_owner") = none →
      (readNodeGeo row).dc_owner = "") := by
  refine ⟨?_, ?_, ?_, ?_⟩
  · intro h
    exact (mem_dcViolations nodes "" _).mpr ⟨rfl, by omega⟩
  · intro h
    exact (mem_ownerViolations nodes "" _).mpr ⟨rfl, by omega⟩
  · intro row hrow
    simp [readNodeGeo, rowGet, hrow]
  · intro row hrow
    simp [readNodeGeo, rowGet, hrow]

/-- Witness for C10: both rows of `sampleRowsC10` lack the
`node_operator_dc` and `dc_owner` columns; the loaded nodes form an
empty-key datacenter group of size 2 that is flagged. -/
theorem claim10_empty_key_groups_witness :
    (readNodeGeo [("node_id", "x"), ("dc_region", "NA,US")]).dc_id = "" ∧
    ("", (sampleC10.filter (fun n => n.change_type ≠ "REMOVED")).filter
          (fun n => n.dc_id = "")) ∈ dcViolations sampleC10 ∧
    ((sampleC10.filter (fun n => n.change_type ≠ "REMOVED")).filter
          (fun n => n.dc_id = "")).length = 2 := by
  refine ⟨(claim10_empty_key_groups sampleC10).2.2.1 _ (by decide), ?_, by decide⟩
  exact (claim10_empty_key_groups sampleC10).1 (by decide)

/-- **C3**: the text variant's region parse is total, splits on comma,
strips whitespace from every split segment, and maps positionally: with
`parts` the stripped comma-split segments, 3 or more segments give the
first three (extras ignored), exactly 2 give `(p0, p1, '')`, and a
single segment — including the empty string, whose split is one empty
segment — gives the raw region string with empty country and city;
in particular on the claim's five concrete examples. -/
theorem claim3_region_parse_total (s : String) :
    (∀ p0 p1 p2 rest, (pySplit s).map pyStrip = p0 :: p1 :: p2 :: rest →
      parseRegionText s = (p0, p1, p2)) ∧
    (∀ p0 p1, (pySplit s).map pyStrip = [p0, p1] →
      parseRegionText s = (p0, p1, "")) ∧
    ((pySplit s).length = 1 → parseRegionText s = (s, "", "")) ∧
    parseRegionText "" = ("", "", "") ∧
    parseRegionText "NA" = ("NA", "", "") ∧
    parseRegionText "NA,US" = ("NA", "US", "") ∧
    parseRegionText "NA,US,NYC" = ("NA", "US", "NYC") ∧
    parseRegionText "NA,US,NYC,extra" = ("NA", "US", "NYC") := by
  refine ⟨?_, ?_, ?_, by decide, by decide, by decide, by decide, by decide⟩
  · intro p0 p1 p2 rest h
    have hlen : 2 ≤ (pySplit s).length := by
      have hl := congrArg List.length h
      simp only [List.length_map, List.length_cons] at hl
      omega
    have hg : s ≠ "" ∧ ',' ∈ s.toList :=
      ⟨pySplit_ne_empty_of_two_le s hlen, (comma_mem_iff s).mpr hlen⟩
    unfold parseRegionText
    rw [if_pos hg, h]
  · intro p0 p1 h
    have hlen : 2 ≤ (pySplit s).length := by
      have hl := congrArg List.length h
      simp only [List.length_map, List.length_cons, List.length_nil] at hl
      omega
    have hg : s ≠ "" ∧ ',' ∈ s.toList :=
      ⟨pySplit_ne_empty_of_two_le s hlen, (comma_mem_iff s).mpr hlen⟩
    unfold parseRegionText
    rw [if_pos hg, h]
  · intro h1
    have hmem : ¬ (',' ∈ s.toList) := by
      rw [comma_mem_iff]
      omega
    unfold parseRegionText
    rw [if_neg (fun hg => hmem hg.2)]

/-- Witness for C3 at concrete inputs with whitespace around segments. -/
theorem claim3_region_parse_total_witness :
    (pySplit "NA, US , NYC ,x").map pyStrip = ["NA", "US", "NYC", "x"] ∧
    parseRegionText "NA, US , NYC ,x" = ("NA", "US", "NYC") ∧
    (pySplit " NA ").length = 1 ∧
    parseRegionText " NA " = (" NA ", "", "") := by
  refine ⟨by decide, ?_, by decide, ?_⟩
  · exact (claim3_region_parse_total "NA, US , NYC ,x").1 "NA" "US" "NYC" ["x"]
      (by decide)
  · exact (claim3_region_parse_total " NA ").2.2.1 (by decide)

/-- C4 counterexample: on `"NA, US"` the map variant's country is the
raw segment `" US"` while the text variant's is the stripped `"US"`, so
the two parses do not compute equal (country, city) pairs. -/
theorem claim4_counterexample :
    ¬ ((parseRegionMap "NA, US").1 = (parseRegionText "NA, US").2.1 ∧
       (parseRegionMap "NA, US").2 = (parseRegionText "NA, US").2.2) := by
  decide

/-- **C4 (amended)**: for every `dc_region` string the two variants'
common grouping fields agree up to the whitespace stripping that only
the text variant applies: stripping the map variant's (country, city)
yields exactly the text variant's (country, city). -/
theorem claim4_common_key_agreement (s : String) :
    pyStrip (parseRegionMap s).1 = (parseRegionText s).2.1 ∧
    pyStrip (parseRegionMap s).2 = (parseRegionText s).2.2 := by
  by_cases hg : s ≠ "" ∧ ',' ∈ s.toList
  · have hlen : 2 ≤ (pySplit s).length := (comma_mem_iff s).mp hg.2
    obtain ⟨a, b, rest, hps⟩ : ∃ a b rest, pySplit s = a :: b :: rest := by
      match h : pySplit s with
      | [] => rw [h] at hlen; simp at hlen
      | [a] => rw [h] at hlen; simp at hlen
      | a :: b :: rest => exact ⟨a, b, rest, rfl⟩
    unfold parseRegionMap parseRegionText
    rw [if_pos hg, if_pos hg, hps]
    cases rest with
    | nil => exact ⟨rfl, pyStrip_empty⟩
    | cons c rest2 => exact ⟨rfl, rfl⟩
  · unfold parseRegionMap parseRegionText
    rw [if_neg hg, if_neg hg]
    exact ⟨pyStrip_empty, pyStrip_empty⟩

/-- Witness for C4 (amended) at a concrete input. -/
theorem claim4_common_key_agreement_witness :
    pyStrip (parseRegionMap "NA, US , NYC").1 =
      (parseRegionText "NA, US , NYC").2.1 ∧
    pyStrip (parseRegionMap "NA, US , NYC").2 =
      (parseRegionText "NA, US , NYC").2.2 ∧
    (parseRegionText "NA, US , NYC").2.1 = "US" :=
  ⟨(claim4_common_key_agreement "NA, US , NYC").1,
   (claim4_common_key_agreement "NA, US , NYC").2, by decide⟩

/-- **C5**: the map document serializes exactly the nodes with both
coordinates set (never a node with an unset coordinate), while the
on-page panel statistics — total, per-change-type counts — are computed
over the full unfiltered node sequence, so the panel total is the number
of all input records. -/
theorem claim5_map_filter_vs_panel (nodes : List Node) (subnet_id : String) :
    (∀ n, n ∈ valid_nodes nodes ↔
      (n ∈ nodes ∧ n.latitude ≠ none ∧ n.longitude ≠ none)) ∧
    panelTotal nodes = nodes.length ∧
    panelAdded nodes = (nodes.filter (fun n => n.change_type = "ADDED")).length ∧
    panelRemoved nodes = (nodes.filter (fun n => n.change_type = "REMOVED")).length ∧
    panelUnchanged nodes =
      (nodes.filter (fun n => n.change_type = "UNCHANGED")).length ∧
    (∃ pre post, generateHtmlMap nodes subnet_id =
      pre ++ jsonDump (valid_nodes nodes) ++ post) := by
  refine ⟨?_, rfl, rfl, rfl, rfl, ⟨_, _, rfl⟩⟩
  intro n
  simp [valid_nodes, List.mem_filter, Option.isSome_iff_ne_none]

/-- **C6**: coordinate coercion is total and silent: the input is
stripped; an empty or literal-`None` remainder is unset; a remainder the
numeric parse rejects is unset; a successful parse yields its numeric
value, e.g. `"37.5"` gives 37.5. -/
theorem claim6_coord_coercion :
    (∀ s : String, pyStrip s = "" → coerceCoord s = none) ∧
    (∀ s : String, pyStrip s = "None" → coerceCoord s = none) ∧
    (∀ s : String, pyFloat (pyStrip s) = none → coerceCoord s = none) ∧
    (∀ (s : String) (q : Rat),
      coerceCoord s = some q → pyFloat (pyStrip s) = some q) ∧
    coerceCoord "" = none ∧ coerceCoord "None" = none ∧
    coerceCoord "abc" = none ∧ coerceCoord "37.5" = some (mkRat 75 2) := by
  refine ⟨?_, ?_, ?_, ?_, by decide, by decide, by decide, by decide⟩
  · intro s h
    simp [coerceCoord, h]
  · intro s h
    simp [coerceCoord, h]
  · intro s h
    simp only [coerceCoord]
    split
    · exact h
    · rfl
  · intro s q h
    simp only [coerceCoord] at h
    split at h
    · exact h
    · cases h

/-- Witness for C6 at concrete inputs. -/
theorem claim6_coord_coercion_witness :
    pyStrip "  None  " = "None" ∧ coerceCoord "  None  " = none ∧
    pyFloat (pyStrip "12x") = none ∧ coerceCoord "12x" = none ∧
    coerceCoord " 37.5 " = some (mkRat 75 2) := by
  refine ⟨by decide, claim6_coord_coercion.2.1 "  None  " (by decide),
    by decide, claim6_coord_coercion.2.2.1 "12x" (by decide), by decide⟩

/-- C8 counterexample: `'VIOLATION'` is not one of the three recognized
change types, yet its marker is the yellow one, not the neutral one: the
marker table also maps the key `VIOLATION`. -/
theorem claim8_counterexample :
    ("VIOLATION" ≠ "ADDED" ∧ "VIOLATION" ≠ "REMOVED" ∧
     "VIOLATION" ≠ "UNCHANGED") ∧
    changeIcon "VIOLATION" ≠ "⚪" ∧ changeIcon "VIOLATION" = "🟡" := by
  decide

/-- **C8 (amended)**: every change-type annotation uses the fixed marker
mapping `ADDED`→green, `REMOVED`→red, `UNCHANGED`→blue, and additionally
`VIOLATION`→yellow; for every change type outside these four mapped
values the neutral marker is printed. -/
theorem claim8_marker_mapping (ct : String) :
    changeIcon "ADDED" = "🟢" ∧ changeIcon "REMOVED" = "🔴" ∧
    changeIcon "UNCHANGED" = "🔵" ∧ changeIcon "VIOLATION" = "🟡" ∧
    (ct ≠ "ADDED" → ct ≠ "REMOVED" → ct ≠ "UNCHANGED" → ct ≠ "VIOLATION" →
      changeIcon ct = "⚪") := by
  refine ⟨by decide, by decide, by decide, by decide, ?_⟩
  intro h1 h2 h3 h4
  have e1 : (("ADDED" : String) == ct) = false :=
    beq_eq_false_iff_ne.mpr (fun h => h1 h.symm)
  have e2 : (("REMOVED" : String) == ct) = false :=
    beq_eq_false_iff_ne.mpr (fun h => h2 h.symm)
  have e3 : (("UNCHANGED" : String) == ct) = false :=
    beq_eq_false_iff_ne.mpr (fun h => h3 h.symm)
  have e4 : (("VIOLATION" : String) == ct) = false :=
    beq_eq_false_iff_ne.mpr (fun h => h4 h.symm)
  simp [changeIcon, colors, List.find?, e1, e2, e3, e4]

/-- Witness for C8 (amended) at a concrete unmapped change type. -/
theorem claim8_marker_mapping_witness :
    ("MOVED" ≠ "ADDED" ∧ "MOVED" ≠ "REMOVED" ∧ "MOVED" ≠ "UNCHANGED" ∧
      "MOVED" ≠ "VIOLATION") ∧ changeIcon "MOVED" = "⚪" :=
  ⟨by decide, (claim8_marker_mapping "MOVED").2.2.2.2 (by decide) (by decide)
    (by decide) (by decide)⟩

/-- **C9**: once a record sequence is in memory the two renderers are
total functions of it: for every node sequence and subnet id the text
renderer produces the complete report — opening banner through closing
footer — and the map generator produces a complete document embedding
the serialized marker data. -/
theorem claim9_pipeline_total (nodes : List Node) (subnet_id : String) :
    (∃ body, renderTextReport nodes subnet_id =
      [bar, "🌍 GEOGRAPHIC DISTRIBUTION ANALYSIS", bar] ++ body ++
        footerSection) ∧
    (∃ pre post, generateHtmlMap nodes subnet_id =
      pre ++ jsonDump (valid_nodes nodes) ++ post) := by
  constructor
  · refine ⟨(headerSection nodes subnet_id).drop 3 ++ changeSummarySection nodes ++
      countrySection nodes ++ regionalSection nodes ++ constraintSection nodes, ?_⟩
    simp [renderTextReport, headerSection, List.append_assoc]
  · exact ⟨_, _, rfl⟩

/-- **C7**: the country-distribution section lists the non-empty
countries with their node counts, sorted by count in descending order;
entries with equal counts appear in the order their country key was
first encountered in the input (`country_summary` is built in dict-key
first-encounter order and the sort is stable with respect to it). -/
theorem claim7_country_sort_stable (nodes : List Node) :
    (countrySorted nodes).Pairwise (fun a b => b.2.1 ≤ a.2.1) ∧
    List.Perm (countrySorted nodes) (countrySummary nodes) ∧
    (∀ p ∈ countrySorted nodes,
      p.1 ≠ "" ∧ p.2.1 = (countryGroup nodes p.1).length) ∧
    (∀ a b, List.Sublist [a, b] (countrySummary nodes) → a.2.1 = b.2.1 →
      List.Sublist [a, b] (countrySorted nodes)) := by
  refine ⟨?_, ?_, ?_, ?_⟩
  · exact sortStable_pairwise_desc (fun t => t.2.1) (countrySummary nodes)
  · exact sortStable_perm _ _
  · intro p hp
    have hp2 := (mem_sortStable _ _ p).mp hp
    rw [countrySummary, List.mem_map] at hp2
    obtain ⟨c, hc, rfl⟩ := hp2
    rw [List.mem_filter] at hc
    exact ⟨by simpa using hc.2, rfl⟩
  · intro a b hsub heq
    exact sortStable_stable (fun t => t.2.1) a b _ hsub (le_of_eq heq.symm)

/-- Witness for C7: in `sampleC7` the tied one-node countries `DE` and
`FR` keep their first-encounter order below the two-node `US`. -/
theorem claim7_country_sort_stable_witness :
    countrySummary sampleC7 =
      [("US", 2, "  US: 2 nodes"), ("DE", 1, "  DE: 1 nodes"),
       ("FR", 1, "  FR: 1 nodes")] ∧
    List.Sublist [(("DE" : String), (1 : Nat), "  DE: 1 nodes"),
      ("FR", 1, "  FR: 1 nodes")] (countrySorted sampleC7) ∧
    (countrySorted sampleC7).Pairwise (fun a b => b.2.1 ≤ a.2.1) := by
  refine ⟨by decide, ?_, (claim7_country_sort_stable sampleC7).1⟩
  exact (claim7_country_sort_stable sampleC7).2.2.2 _ _ (by decide) (by decide)

end SubnetReport
